import Mathlib

set_option maxRecDepth 100000
set_option maxHeartbeats 1000000

/-!
Shallow embedding of `src/SearchAirports.py` (module `SearchAirports`):
the haversine distance `calculate_distance`, the circle-to-rectangle
projection `enclosing_rectangle`, the result filter/sorter
`filter_and_sort`, and the paginated Cloudant client
`AirportDbClient.get_search_results` with its wrapping exception
`AirportDbException`.

Python floats are modelled as real numbers; `math.isclose` is modelled
with its documented semantics (`rel_tol = 1e-9`, `abs_tol = 0`); the
`while` loop of the paging client is modelled with explicit fuel, where
returning `none` at every fuel value is the embedding of
non-termination.
-/

namespace SearchAirports

noncomputable section

open Classical

/-- `EARTH_RADIUS = 6371.0088`, the average Earth radius in km
(SearchAirports.py line 9). -/
def EARTH_RADIUS : ℝ := 6371.0088

/-- Python's `math.radians`: degrees to radians. -/
def radians (x : ℝ) : ℝ := x * Real.pi / 180

/-- Python's `math.isclose` with its default tolerances
(`rel_tol = 1e-9`, `abs_tol = 0.0`):
`abs(a-b) <= max(rel_tol * max(abs(a), abs(b)), abs_tol)`. -/
def isclose (a b : ℝ) : Prop := |a - b| ≤ 1e-9 * max |a| |b|

/-- `calculate_distance(lat1, lon1, lat2, lon2)`
(SearchAirports.py lines 155-179): haversine distance in km between two
points given in degrees. -/
def calculate_distance (lat1 lon1 lat2 lon2 : ℝ) : ℝ :=
  let lat1r := radians lat1
  let lon1r := radians lon1
  let lat2r := radians lat2
  let lon2r := radians lon2
  let dlat := lat1r - lat2r
  let dlon := lon1r - lon2r
  let h := Real.sin (dlat * 0.5) ^ 2 +
    Real.cos lat1r * Real.cos lat2r * Real.sin (dlon * 0.5) ^ 2
  EARTH_RADIUS * 2 * Real.arcsin (Real.sqrt h)

/-- `enclosing_rectangle(radius, origin_lat, origin_lon)`
(SearchAirports.py lines 182-259).  Returns a list of 4 reals (one
rectangle `[lat_S, lat_N, lon_W, lon_E]`) or of 6 reals (two rectangles
`[lat_S, lat_N, lon_W, 180, -180, lon_E]` sharing the lat bounds).
The Python mutation of `lat_S` / `lat_N` before the `pole_reached`
return is rendered by clamping each bound exactly under the condition
that set it in the source; the float literals `90.0` etc. are the real
numbers `90` etc. -/
def enclosing_rectangle (radius origin_lat origin_lon : ℝ) : List ℝ :=
  let circum_earth := 2 * Real.pi * EARTH_RADIUS
  -- 1st edge-case
  if radius ≥ circum_earth * 0.5 then [-90, 90, -180, 180]
  else
    let dlat := (radius / circum_earth) * 360
    let lat_S := origin_lat - dlat
    let lat_N := origin_lat + dlat
    -- 2nd edge-case: south or north pole reached
    if (lat_S < -90 ∨ isclose lat_S (-90)) ∨ (lat_N > 90 ∨ isclose lat_N 90) then
      [if lat_S < -90 ∨ isclose lat_S (-90) then -90 else lat_S,
       if lat_N > 90 ∨ isclose lat_N 90 then 90 else lat_N,
       -180, 180]
    else
      let circum_small := 2 * Real.pi * Real.cos (radians origin_lat) * EARTH_RADIUS
      -- 3rd edge-case
      if radius ≥ circum_small / 2 then [lat_S, lat_N, -180, 180]
      else
        let dlon := (radius / circum_small) * 360
        let lon_W := origin_lon - dlon
        let lon_E := origin_lon + dlon
        -- 4th edge-case: antimeridian wraparound
        if lon_W < -180 then [lat_S, lat_N, 360 + lon_W, 180, -180, lon_E]
        else if lon_E > 180 then [lat_S, lat_N, lon_W, 180, -180, lon_E - 360]
        else [lat_S, lat_N, lon_W, lon_E]

/-- A candidate airport record pulled from the database: a mapping with
at least `name`, `lat`, `lon` (the `fields` of a search-result row). -/
structure Airport where
  name : String
  lat : ℝ
  lon : ℝ

/-- `filter_and_sort(search_results, radius, origin_lat, origin_lon)`
(SearchAirports.py lines 262-293): attach the computed distance to each
airport within `radius` of the origin (Python mutates the record in
place; here the record is paired with its distance), drop the rest, and
sort ascending by distance.  Python's `list.sort` is a stable sort; it
is rendered by `List.mergeSort`, which is the stable sort of the Lean
core library, and stability is proved about the result. -/
def filter_and_sort (search_results : List Airport)
    (radius origin_lat origin_lon : ℝ) : List (Airport × ℝ) :=
  let airport_list :=
    (search_results.map
      (fun a => (a, calculate_distance origin_lat origin_lon a.lat a.lon))).filter
      (fun p => decide (p.2 ≤ radius))
  airport_list.mergeSort (fun x y => decide (x.2 ≤ y.2))

end

/-- A row of a Cloudant search result: the code reads `r['fields']` for
each row `r` (SearchAirports.py lines 119 and 132).  The record type is
a parameter `ρ`. -/
structure Row (ρ : Type) where
  fields : ρ

/-- A Cloudant search response:
`{"total_rows": ..., "bookmark": ..., "rows": [...]}` — the shape the
code reads at lines 112-132.  `total_rows` is the total number of
matches of the query, not the size of the current page. -/
structure PageResult (ρ : Type) where
  total_rows : ℕ
  bookmark : String
  rows : List (Row ρ)

/-- A backend query.  `_format_query` builds the string
`lat:[a TO b] AND lon:[c TO d]`; the embedding keeps the four numbers
that the string carries. -/
def Query : Type := ℝ × ℝ × ℝ × ℝ

/-- The remote backend as seen by `get_search_results`: each call of
`self.db.get_search_result(..., query, limit=200[, bookmark])` either
returns a page or raises (`Except.error`).  The `limit=200` argument is
constant in the source, so it is left implicit in the model. -/
def SearchFn (ε ρ : Type) : Type := Query → Option String → Except ε (PageResult ρ)

/-- `AirportDbClient._format_query(rect)` (SearchAirports.py lines
55-76): a 4-element rectangle yields one query, a 6-element one yields
two queries sharing the lat bounds.  Other lengths raise an uncaught
`IndexError` in the source (never produced by `enclosing_rectangle`) and
are mapped to the empty query list here; no claim touches them. -/
def format_query (rect : List ℝ) : List Query :=
  match rect with
  | [a, b, c, d] => [(a, b, c, d)]
  | a :: b :: c :: d :: e :: f :: _ => [(a, b, c, d), (a, b, e, f)]
  | _ => []

/-- `AirportDbException` (SearchAirports.py lines 140-152): wraps the
caught exception as its `exception` attribute. -/
structure AirportDbException (ε : Type) where
  exception : ε

/-- The `while len(results) < total_number` paging loop of
`get_search_results` (SearchAirports.py lines 121-132), with explicit
fuel: `none` means the fuel ran out, i.e. the loop was still running.
State carried: the last response `q_result` (whose `bookmark` seeds the
next request), the global accumulated `results`, and the number of
backend requests issued so far (`cnt`, recorded for the paging claims;
the source has no such counter, it merely issues the requests). -/
def pageLoop (search : SearchFn ε ρ) (qr : Query) (total_number : ℕ) :
    ℕ → PageResult ρ → List ρ → ℕ → Option (Except ε (List ρ × ℕ))
  | 0, _, results, cnt =>
    if results.length < total_number then none
    else some (.ok (results, cnt))
  | fuel + 1, q_result, results, cnt =>
    if results.length < total_number then
      match search qr (some q_result.bookmark) with
      | .error e => some (.error e)
      | .ok q2 =>
        pageLoop search qr total_number fuel q2
          (results ++ q2.rows.map Row.fields) (cnt + 1)
    else
      some (.ok (results, cnt))

/-- The `for qr in queries` loop of `get_search_results`
(SearchAirports.py lines 102-132): for each query, issue the first
(bookmark-free) request, add its `total_rows` to the running
`total_number`, extend the global `results`, then page with `pageLoop`.
`none` propagates fuel exhaustion, `Except.error` propagates a backend
exception. -/
def queryLoop (search : SearchFn ε ρ) (fuel : ℕ) :
    List Query → ℕ → List ρ → ℕ → Option (Except ε (List ρ × ℕ))
  | [], _, results, cnt => some (.ok (results, cnt))
  | qr :: rest, total_number, results, cnt =>
    match search qr none with
    | .error e => some (.error e)
    | .ok q_result =>
      let total' := total_number + q_result.total_rows
      let results' := results ++ q_result.rows.map Row.fields
      match pageLoop search qr total' fuel q_result results' (cnt + 1) with
      | none => none
      | some (.error e) => some (.error e)
      | some (.ok (results'', cnt'')) => queryLoop search fuel rest total' results'' cnt''

/-- `AirportDbClient.get_search_results(rectangles)` (SearchAirports.py
lines 78-137): format the queries, run the query/paging loops inside
`try`, and re-raise any exception as `AirportDbException(ex)`.  On
success the accumulated record list is returned (paired here with the
number of requests issued); on a backend error only the wrapping
exception escapes — the locally accumulated `results` are discarded
with the frame, which the `Except` return shape makes structural. -/
def get_search_results (search : SearchFn ε ρ) (rectangles : List ℝ) (fuel : ℕ) :
    Option (Except (AirportDbException ε) (List ρ × ℕ)) :=
  match queryLoop search fuel (format_query rectangles) 0 [] 0 with
  | none => none
  | some (.error e) => some (.error ⟨e⟩)
  | some (.ok r) => some (.ok r)

/-- The haversine distance exactly as the specification writes it
(spec 4.1): `a = sin²(Δlat/2) + cos(lat1)·cos(lat2)·sin²(Δlon/2)`,
`d = 2·R·asin(√a)`, all angles first converted to radians, with
`R = 6371.0088` and `Δx = x2 - x1`.  Stated from the spec's words, to be
compared with `calculate_distance`, which is translated from the
source. -/
noncomputable def spec_haversine (lat1 lon1 lat2 lon2 : ℝ) : ℝ :=
  let a := Real.sin ((radians lat2 - radians lat1) / 2) ^ 2 +
    Real.cos (radians lat1) * Real.cos (radians lat2) *
      Real.sin ((radians lon2 - radians lon1) / 2) ^ 2
  2 * 6371.0088 * Real.arcsin (Real.sqrt a)

/-- A page of `n` mock airport records carrying ids `start`, …,
`start+n-1`. -/
def mockRows (start n : ℕ) : List (Row ℕ) :=
  (List.range n).map (fun i => ⟨start + i⟩)

/-- A mock backend for the paging scenario of the spec's §8: every query
matches 450 records, served in pages of 200, 200 and 50; each page's
bookmark is the key to the next page, and any other bookmark gets an
empty page.  (Records arrive in full only if the client threads the
bookmarks correctly.) -/
def mockSearch : SearchFn Unit ℕ := fun _ bm =>
  match bm with
  | none => .ok ⟨450, "b1", mockRows 0 200⟩
  | some "b1" => .ok ⟨450, "b2", mockRows 200 200⟩
  | some "b2" => .ok ⟨450, "b3", mockRows 400 50⟩
  | some _ => .ok ⟨450, "bad", []⟩

/-- A mock backend whose every request fails with error code `7`. -/
def failSearch : SearchFn ℕ ℕ := fun _ _ => .error 7

/-- A mock backend that fails only on bookmarked (second and later)
requests, after having served a first page of 200 of 450 reported
records: exercises a failure in the middle of paging. -/
def midFailSearch : SearchFn ℕ ℕ := fun _ bm =>
  match bm with
  | none => .ok ⟨450, "b1", mockRows 0 200⟩
  | some _ => .error 13

/-- A mock backend that always reports one total match but serves an
empty page: the divergence scenario of the paging loop. -/
def emptyPageSearch : SearchFn Unit ℕ := fun _ _ => .ok ⟨1, "bm", []⟩

section Theorems

open Classical

/-- Squared sine is invariant under swapping the two endpoints of the
difference (`sin` is odd). -/
theorem sin_sq_sub_comm (x y : ℝ) :
    Real.sin ((x - y) * 0.5) ^ 2 = Real.sin ((y - x) * 0.5) ^ 2 := by
  rw [show (x - y) * 0.5 = -((y - x) * 0.5) by ring, Real.sin_neg, neg_sq]

/-- C9: `calculate_distance` returns 0 when both points are equal, and
is symmetric in its two points: swapping `(lat1, lon1)` with
`(lat2, lon2)` leaves the value unchanged. -/
theorem claim9_distance_refl_and_symm (lat1 lon1 lat2 lon2 : ℝ) :
    calculate_distance lat1 lon1 lat1 lon1 = 0 ∧
    calculate_distance lat1 lon1 lat2 lon2 = calculate_distance lat2 lon2 lat1 lon1 := by
  constructor
  · simp [calculate_distance]
  · simp only [calculate_distance]
    rw [sin_sq_sub_comm (radians lat1) (radians lat2),
      sin_sq_sub_comm (radians lon1) (radians lon2),
      mul_comm (Real.cos (radians lat1)) (Real.cos (radians lat2))]

/-- C5: `calculate_distance` computes exactly the haversine formula of
the specification (`spec_haversine`, written from the spec's words) on
the sphere of radius 6371.0088 km, and the value is non-negative and
bounded by half the Earth's circumference (`π · R`) — the real-valued
rendering of "finite non-negative for finite inputs". -/
theorem claim5_distance_is_haversine (lat1 lon1 lat2 lon2 : ℝ) :
    calculate_distance lat1 lon1 lat2 lon2 = spec_haversine lat1 lon1 lat2 lon2 ∧
    0 ≤ calculate_distance lat1 lon1 lat2 lon2 ∧
    calculate_distance lat1 lon1 lat2 lon2 ≤ Real.pi * EARTH_RADIUS := by
  refine ⟨?_, ?_, ?_⟩
  · simp only [calculate_distance, spec_haversine]
    rw [show (radians lat2 - radians lat1) / 2 = -((radians lat1 - radians lat2) * 0.5) by ring,
      show (radians lon2 - radians lon1) / 2 = -((radians lon1 - radians lon2) * 0.5) by ring,
      Real.sin_neg, Real.sin_neg, neg_sq, neg_sq]
    norm_num [EARTH_RADIUS]
  · exact mul_nonneg (by norm_num [EARTH_RADIUS])
      (Real.arcsin_nonneg.mpr (Real.sqrt_nonneg _))
  · have h1 := Real.arcsin_le_pi_div_two (Real.sqrt (Real.sin ((radians lat1 - radians lat2) * 0.5) ^ 2 +
      Real.cos (radians lat1) * Real.cos (radians lat2) *
        Real.sin ((radians lon1 - radians lon2) * 0.5) ^ 2))
    have hR : (0:ℝ) < EARTH_RADIUS := by norm_num [EARTH_RADIUS]
    simp only [calculate_distance]
    nlinarith [h1, hR]

/-- The comparator used to model Python's key-based `list.sort` is
transitive. -/
theorem distLE_trans (a b c : Airport × ℝ)
    (h1 : decide (a.2 ≤ b.2) = true) (h2 : decide (b.2 ≤ c.2) = true) :
    decide (a.2 ≤ c.2) = true := by
  simp only [decide_eq_true_eq] at h1 h2 ⊢
  exact le_trans h1 h2

/-- The comparator used to model Python's key-based `list.sort` is
total. -/
theorem distLE_total (a b : Airport × ℝ) :
    (decide (a.2 ≤ b.2) || decide (b.2 ≤ a.2)) = true := by
  rcases le_total a.2 b.2 with h | h <;> simp [h]

/-- Stability of the modelled sort: for every distance value `d`, the
records of distance `d` appear in the sorted list exactly as they
appear in its input. -/
theorem mergeSort_filter_dist_eq (l : List (Airport × ℝ)) (d : ℝ) :
    (l.mergeSort (fun x y => decide (x.2 ≤ y.2))).filter
        (fun p => decide (p.2 = d)) =
      l.filter (fun p => decide (p.2 = d)) := by
  set p : Airport × ℝ → Bool := fun p => decide (p.2 = d) with hp
  have hall : ∀ x ∈ l.filter p, x.2 = d := by
    intro x hx
    have := List.of_mem_filter hx
    simpa [hp] using this
  have hpw : (l.filter p).Pairwise
      (fun x y : Airport × ℝ => decide (x.2 ≤ y.2) = true) := by
    apply List.pairwise_of_forall_mem_list
    intro a ha b hb
    simp only [decide_eq_true_eq]
    rw [hall a ha, hall b hb]
  have hsub : List.Sublist (l.filter p) (l.mergeSort (fun x y => decide (x.2 ≤ y.2))) :=
    List.sublist_mergeSort distLE_trans distLE_total hpw (List.filter_sublist l)
  have hsub2 : List.Sublist (l.filter p)
      ((l.mergeSort (fun x y => decide (x.2 ≤ y.2))).filter p) := by
    have h1 := hsub.filter p
    have hself : (l.filter p).filter p = l.filter p := by
      rw [List.filter_eq_self]
      intro a ha
      exact List.of_mem_filter ha
    rwa [hself] at h1
  refine (hsub2.eq_of_length ?_).symm
  have hperm : List.Perm ((l.mergeSort (fun x y => decide (x.2 ≤ y.2))).filter p)
      (l.filter p) := (List.mergeSort_perm l _).filter p
  exact (hperm.length_eq).symm

/-- C2: `filter_and_sort` keeps exactly the input records whose computed
distance from the origin is at most `radius` (ties at the radius
included), attaches to each its computed distance, and sorts ascending
by distance; records of equal distance keep their original relative
order, and the empty input yields the empty output.  `kept` is the
filtered distance-annotated input in input order; the output is a
permutation of it, sorted, and for each distance value agrees with it
on the subsequence at that distance (stability). -/
theorem claim2_filter_and_sort_exact (search_results : List Airport)
    (radius origin_lat origin_lon : ℝ) :
    (filter_and_sort search_results radius origin_lat origin_lon).Perm
        ((search_results.map (fun a =>
            (a, calculate_distance origin_lat origin_lon a.lat a.lon))).filter
          (fun p => decide (p.2 ≤ radius))) ∧
    (∀ p ∈ filter_and_sort search_results radius origin_lat origin_lon,
        p.2 ≤ radius ∧ p.2 = calculate_distance origin_lat origin_lon p.1.lat p.1.lon) ∧
    (filter_and_sort search_results radius origin_lat origin_lon).Pairwise
        (fun x y => x.2 ≤ y.2) ∧
    (∀ d : ℝ, (filter_and_sort search_results radius origin_lat origin_lon).filter
          (fun p => decide (p.2 = d)) =
        ((search_results.map (fun a =>
            (a, calculate_distance origin_lat origin_lon a.lat a.lon))).filter
          (fun p => decide (p.2 ≤ radius))).filter (fun p => decide (p.2 = d))) ∧
    (search_results = [] →
      filter_and_sort search_results radius origin_lat origin_lon = []) := by
  refine ⟨?_, ?_, ?_, ?_, ?_⟩
  · exact List.mergeSort_perm _ _
  · intro p hp
    simp only [filter_and_sort, List.mem_mergeSort] at hp
    obtain ⟨hmem, hle⟩ := List.mem_filter.mp hp
    refine ⟨by simpa using hle, ?_⟩
    obtain ⟨a, _, rfl⟩ := List.mem_map.mp hmem
    rfl
  · have h := List.sorted_mergeSort distLE_trans distLE_total
      ((search_results.map (fun a =>
          (a, calculate_distance origin_lat origin_lon a.lat a.lon))).filter
        (fun p => decide (p.2 ≤ radius)))
    exact h.imp (by simp)
  · intro d
    exact mergeSort_filter_dist_eq _ d
  · intro h
    simp [filter_and_sort, h]

/-- C3: against a backend reporting 450 total matches served in pages
of 200, 200 and 50 (`mockSearch`, which serves each page only to the
bookmark returned by the previous response), `get_search_results`
issues exactly 3 requests for a one-rectangle query and collects all
450 records in order; a two-rectangle (6-value) split runs an
independent 3-request paging sequence per rectangle piece — 6 requests
in total — and concatenates the two pieces' record lists. -/
theorem claim3_paging_450 (a b c d e f : ℝ) :
    get_search_results mockSearch [a, b, c, d] 10 =
      some (Except.ok (List.range 450, 3)) ∧
    get_search_results mockSearch [a, b, c, d, e, f] 10 =
      some (Except.ok (List.range 450 ++ List.range 450, 6)) := by
  exact ⟨rfl, rfl⟩

/-- If the paging loop returns a backend error, some bookmarked backend
request produced exactly that error. -/
theorem pageLoop_error_cause (search : SearchFn ε ρ) (qr : Query) (total : ℕ) :
    ∀ (fuel : ℕ) (last : PageResult ρ) (results : List ρ) (cnt : ℕ) (e : ε),
      pageLoop search qr total fuel last results cnt = some (.error e) →
      ∃ q bm, search q bm = .error e := by
  intro fuel
  induction fuel with
  | zero =>
    intro last results cnt e h
    simp only [pageLoop] at h
    split at h
    · exact absurd h (by simp)
    · exact absurd h (by simp)
  | succ n ih =>
    intro last results cnt e h
    cases hs : search qr (some last.bookmark) with
    | error e' =>
      simp only [pageLoop, hs] at h
      split at h
      · simp only [Option.some.injEq, Except.error.injEq] at h
        exact ⟨qr, some last.bookmark, by rw [hs, h]⟩
      · exact absurd h (by simp)
    | ok q2 =>
      simp only [pageLoop, hs] at h
      split at h
      · exact ih q2 _ _ e h
      · exact absurd h (by simp)

/-- If the query loop returns a backend error, some backend request
produced exactly that error. -/
theorem queryLoop_error_cause (search : SearchFn ε ρ) (fuel : ℕ) :
    ∀ (qs : List Query) (total : ℕ) (results : List ρ) (cnt : ℕ) (e : ε),
      queryLoop search fuel qs total results cnt = some (.error e) →
      ∃ q bm, search q bm = .error e := by
  intro qs
  induction qs with
  | nil =>
    intro total results cnt e h
    exact absurd h (by simp [queryLoop])
  | cons qr rest ih =>
    intro total results cnt e h
    cases hs : search qr none with
    | error e' =>
      simp only [queryLoop, hs, Option.some.injEq, Except.error.injEq] at h
      exact ⟨qr, none, by rw [hs, h]⟩
    | ok q1 =>
      simp only [queryLoop, hs] at h
      cases hp : pageLoop search qr (total + q1.total_rows) fuel q1
          (results ++ q1.rows.map Row.fields) (cnt + 1) with
      | none => rw [hp] at h; exact absurd h (by simp)
      | some r =>
        cases r with
        | error e' =>
          rw [hp] at h
          simp only [Option.some.injEq, Except.error.injEq] at h
          subst h
          exact pageLoop_error_cause search qr _ fuel q1 _ _ e' hp
        | ok p =>
          obtain ⟨res2, cnt2⟩ := p
          rw [hp] at h
          exact ih _ res2 cnt2 e h

/-- If `get_search_results` surfaces an `AirportDbException`, its
wrapped cause is exactly the error some backend request produced. -/
theorem get_search_results_error_cause (search : SearchFn ε ρ)
    (rect : List ℝ) (fuel : ℕ) (ex : AirportDbException ε)
    (h : get_search_results search rect fuel = some (.error ex)) :
    ∃ q bm, search q bm = .error ex.exception := by
  unfold get_search_results at h
  cases hq : queryLoop search fuel (format_query rect) 0 [] 0 with
  | none => rw [hq] at h; exact absurd h (by simp)
  | some r =>
    cases r with
    | error e =>
      rw [hq] at h
      simp only [Option.some.injEq, Except.error.injEq] at h
      subst h
      exact queryLoop_error_cause search fuel _ 0 [] 0 e hq
    | ok p => rw [hq] at h; exact absurd h (by simp)

/-- C4: error atomicity of `get_search_results`.  (i) Whenever the call
surfaces an error it is one `AirportDbException` whose `exception`
field is exactly the error some backend request raised; the error
branch of the `Except` return carries no records, so pages accumulated
before the failure are discarded, never returned.  (ii) If no backend
request can fail, no `AirportDbException` is surfaced.  (iii) A
concrete run in which the backend fails on the second (bookmarked)
request after a first page of 200 of 450 records was already
accumulated returns only the wrapping exception. -/
theorem claim4_error_atomicity (ε ρ : Type) :
    (∀ (search : SearchFn ε ρ) (rect : List ℝ) (fuel : ℕ) (ex : AirportDbException ε),
        get_search_results search rect fuel = some (.error ex) →
        ∃ q bm, search q bm = .error ex.exception) ∧
    (∀ (search : SearchFn ε ρ) (rect : List ℝ) (fuel : ℕ),
        (∀ q bm, ∃ r, search q bm = .ok r) →
        ∀ ex : AirportDbException ε,
          get_search_results search rect fuel ≠ some (.error ex)) ∧
    (∀ a b c d : ℝ,
        get_search_results midFailSearch [a, b, c, d] 10 =
          some (.error ⟨13⟩)) := by
  refine ⟨?_, ?_, ?_⟩
  · exact fun search rect fuel ex h => get_search_results_error_cause search rect fuel ex h
  · intro search rect fuel hok ex h
    obtain ⟨q, bm, hqq⟩ := get_search_results_error_cause search rect fuel ex h
    obtain ⟨r, hr⟩ := hok q bm
    rw [hqq] at hr
    exact absurd hr (by simp)
  · intro a b c d
    rfl

/-- If every bookmarked response for query `qr` has an empty row list,
the paging loop never finishes while the accumulated count is short of
the total: it returns `none` at every fuel value. -/
theorem pageLoop_empty_rows_none (search : SearchFn ε ρ) (qr : Query) (total : ℕ)
    (hrows : ∀ bm, ∃ t bk, search qr (some bm) = .ok ⟨t, bk, []⟩) :
    ∀ (fuel : ℕ) (last : PageResult ρ) (results : List ρ) (cnt : ℕ),
      results.length < total →
      pageLoop search qr total fuel last results cnt = none := by
  intro fuel
  induction fuel with
  | zero =>
    intro last results cnt hlt
    simp [pageLoop, if_pos hlt]
  | succ n ih =>
    intro last results cnt hlt
    obtain ⟨t, bk, hok⟩ := hrows last.bookmark
    simp only [pageLoop, if_pos hlt, hok, List.map_nil, List.append_nil]
    exact ih _ _ _ hlt

/-- C10: the paging loop of `get_search_results` compares the length of
the globally accumulated result list with the accumulated `total_rows`;
a backend that reports a positive total but serves empty pages
therefore keeps the loop running forever: at every fuel value the run
is still unfinished (`none`), i.e. the loop repeats forever.
Termination requires the backend to keep delivering rows while the
accumulated count is short of the reported total. -/
theorem claim10_empty_page_divergence (ε ρ : Type) (search : SearchFn ε ρ)
    (h : ∀ q bm, ∃ t bk, search q bm = .ok ⟨t + 1, bk, []⟩) :
    ∀ (fuel : ℕ) (a b c d : ℝ),
      get_search_results search [a, b, c, d] fuel = none := by
  intro fuel a b c d
  obtain ⟨t, bk, hok⟩ := h (a, b, c, d) none
  have hrows : ∀ bm, ∃ t' bk', search (a, b, c, d) (some bm) = .ok ⟨t', bk', []⟩ := by
    intro bm
    obtain ⟨t', bk', hok'⟩ := h (a, b, c, d) (some bm)
    exact ⟨t' + 1, bk', hok'⟩
  have hpage : pageLoop search (a, b, c, d) (0 + (t + 1)) fuel
      (⟨t + 1, bk, []⟩ : PageResult ρ) ([] ++ (([] : List (Row ρ)).map Row.fields)) 1 = none := by
    apply pageLoop_empty_rows_none search _ _ hrows
    simp
  unfold get_search_results
  simp only [format_query, queryLoop, hok, hpage]

/-- Two numbers whose distance exceeds the relative tolerance are not
`isclose` (for `|a| ≤ |b|`, so that the tolerance is `1e-9 * |b|`). -/
theorem not_isclose_of_far {a b : ℝ} (hab : |a| ≤ |b|) (h : 1e-9 * |b| < |a - b|) :
    ¬ isclose a b := by
  unfold isclose
  rw [max_eq_right hab]
  exact not_le.mpr h

/-- The key numeric bound for the counterexample: `arcsin (1/4) < 0.26`
(the true value is `0.2527…`). -/
theorem arcsin_quarter_lt : Real.arcsin (1/4) < 0.26 := by
  have hy : (0.26:ℝ) ∈ Set.Icc (-(Real.pi/2)) (Real.pi/2) := by
    constructor
    · nlinarith [Real.pi_gt_three]
    · nlinarith [Real.pi_gt_three]
  rw [Real.arcsin_lt_iff_lt_sin (by norm_num : (1/4:ℝ) ∈ Set.Icc (-1:ℝ) 1) hy]
  have h := Real.sin_gt_sub_cube (by norm_num : (0:ℝ) < 0.26) (by norm_num : (0.26:ℝ) ≤ 1)
  nlinarith [h]

/-- C1 (falsified by the code): the returned rectangle is NOT always a
superset of the true circle.  For the origin `(60°, 0°)` and the radius
`calculate_distance 60 0 60 60` (the distance to the point `(60°, 60°)`,
so that point lies within the radius — on its boundary), the code
returns a single rectangle whose east longitude bound is strictly below
`60`, so the point `(60°, 60°)` of the circle lies outside the
rectangle.  The cause: the code's longitude half-width
`dlon = (radius / circum_small) * 360` measures the radius along the
origin's parallel, which at non-equatorial latitudes is strictly
smaller than the circle's true maximal longitude deviation
`arcsin (sin ρ / cos lat)`. -/
theorem claim1_rectangle_not_superset :
    0 < calculate_distance 60 0 60 60 ∧
    ∃ S N W E : ℝ,
      enclosing_rectangle (calculate_distance 60 0 60 60) 60 0 = [S, N, W, E] ∧
      E < 60 := by
  have hπ₁ : (3.141592:ℝ) < Real.pi := Real.pi_gt_3141592
  have hR : (0:ℝ) < EARTH_RADIUS := by norm_num [EARTH_RADIUS]
  have hRne : EARTH_RADIUS ≠ (0:ℝ) := ne_of_gt hR
  have h60 : radians 60 = Real.pi / 3 := by unfold radians; ring
  have h0 : radians 0 = 0 := by unfold radians; ring
  have hcos60 : Real.cos (radians 60) = 1/2 := by rw [h60, Real.cos_pi_div_three]
  have harc_pos : 0 < Real.arcsin (1/4) := Real.arcsin_pos.mpr (by norm_num)
  have harc_lt := arcsin_quarter_lt
  have hrad : Real.sin ((radians 60 - radians 60) * 0.5) ^ 2 +
      Real.cos (radians 60) * Real.cos (radians 60) *
        Real.sin ((radians 0 - radians 60) * 0.5) ^ 2 = 1/16 := by
    rw [show (radians 60 - radians 60) * 0.5 = 0 by ring,
      show (radians 0 - radians 60) * 0.5 = -(Real.pi/6) by rw [h60, h0]; ring,
      Real.sin_zero, Real.sin_neg, Real.sin_pi_div_six, hcos60]
    norm_num
  have hdist : calculate_distance 60 0 60 60 =
      EARTH_RADIUS * 2 * Real.arcsin (1/4) := by
    simp only [calculate_distance]
    rw [hrad, show (1/16:ℝ) = (1/4)^2 by norm_num,
      Real.sqrt_sq (by norm_num : (0:ℝ) ≤ 1/4)]
  constructor
  · rw [hdist]
    exact mul_pos (by norm_num [EARTH_RADIUS]) harc_pos
  rw [hdist]
  simp only [enclosing_rectangle]
  have hcond1 : EARTH_RADIUS * 2 * Real.arcsin (1/4) <
      2 * Real.pi * EARTH_RADIUS * 0.5 := by
    nlinarith [mul_pos hR (by linarith :
      (0:ℝ) < Real.pi - 2 * Real.arcsin (1/4))]
  rw [if_neg (not_le.mpr hcond1)]
  have hsimp : EARTH_RADIUS * 2 * Real.arcsin (1/4) /
      (2 * Real.pi * EARTH_RADIUS) * 360 = Real.arcsin (1/4) / Real.pi * 360 := by
    field_simp
    ring
  rw [hsimp]
  have hD_pos : 0 < Real.arcsin (1/4) / Real.pi * 360 :=
    mul_pos (div_pos harc_pos Real.pi_pos) (by norm_num)
  have hD_lt : Real.arcsin (1/4) / Real.pi * 360 < 29.8 := by
    rw [div_mul_eq_mul_div, div_lt_iff Real.pi_pos]
    nlinarith
  set D := Real.arcsin (1/4) / Real.pi * 360 with hDdef
  have hnic1 : ¬ isclose (60 - D) (-90) := by
    apply not_isclose_of_far
    · rw [abs_of_pos (by linarith : (0:ℝ) < 60 - D),
        abs_of_neg (by norm_num : (-90:ℝ) < 0)]
      linarith
    · rw [abs_of_neg (by norm_num : (-90:ℝ) < 0),
        abs_of_pos (by linarith : (0:ℝ) < 60 - D - (-90))]
      linarith
  have hnic2 : ¬ isclose (60 + D) 90 := by
    apply not_isclose_of_far
    · rw [abs_of_pos (by linarith : (0:ℝ) < 60 + D),
        abs_of_pos (by norm_num : (0:ℝ) < (90:ℝ))]
      linarith
    · rw [abs_of_pos (by norm_num : (0:ℝ) < (90:ℝ)),
        abs_of_neg (by linarith : 60 + D - 90 < (0:ℝ))]
      linarith
  have hnpole : ¬(((60:ℝ) - D < -90 ∨ isclose (60 - D) (-90)) ∨
      ((60:ℝ) + D > 90 ∨ isclose (60 + D) 90)) := by
    rintro ((h | h) | (h | h))
    · linarith
    · exact hnic1 h
    · linarith
    · exact hnic2 h
  rw [if_neg hnpole, hcos60]
  have hcond3 : EARTH_RADIUS * 2 * Real.arcsin (1/4) <
      2 * Real.pi * (1/2) * EARTH_RADIUS / 2 := by
    nlinarith [mul_pos hR (by linarith :
      (0:ℝ) < Real.pi / 2 - 2 * Real.arcsin (1/4))]
  rw [if_neg (not_le.mpr hcond3)]
  have hsimp2 : EARTH_RADIUS * 2 * Real.arcsin (1/4) /
      (2 * Real.pi * (1/2) * EARTH_RADIUS) * 360 =
      Real.arcsin (1/4) / Real.pi * 720 := by
    field_simp
    ring
  rw [hsimp2]
  have hE_pos : 0 < Real.arcsin (1/4) / Real.pi * 720 :=
    mul_pos (div_pos harc_pos Real.pi_pos) (by norm_num)
  have hE_lt : Real.arcsin (1/4) / Real.pi * 720 < 60 := by
    rw [div_mul_eq_mul_div, div_lt_iff Real.pi_pos]
    nlinarith
  set E := Real.arcsin (1/4) / Real.pi * 720 with hEdef
  rw [if_neg (by linarith : ¬((0:ℝ) - E < -180)),
    if_neg (by linarith : ¬((0:ℝ) + E > 180))]
  exact ⟨60 - D, 60 + D, 0 - E, 0 + E, rfl, by linarith⟩

/-- C8: shape invariants of `enclosing_rectangle` for valid inputs:
the result is a single rectangle `[S, N, W, E]` with `S ≤ N` and both
longitude bounds in `[-180, 180]`, or two rectangles
`[S, N, W, 180, -180, E]` sharing the latitude bounds, with all four
longitude bounds in `[-180, 180]` and the two longitude intervals
`[W, 180]` and `[-180, E]` disjoint and non-adjacent (`E < W`). -/
theorem claim8_rect_invariants (radius origin_lat origin_lon : ℝ)
    (hr : 0 < radius) (hlat₁ : -90 ≤ origin_lat) (hlat₂ : origin_lat ≤ 90)
    (hlon₁ : -180 ≤ origin_lon) (hlon₂ : origin_lon ≤ 180) :
    (∃ S N W E : ℝ, enclosing_rectangle radius origin_lat origin_lon = [S, N, W, E] ∧
      S ≤ N ∧ -180 ≤ W ∧ W ≤ 180 ∧ -180 ≤ E ∧ E ≤ 180) ∨
    (∃ S N W E : ℝ,
      enclosing_rectangle radius origin_lat origin_lon = [S, N, W, 180, -180, E] ∧
      S ≤ N ∧ -180 ≤ W ∧ W ≤ 180 ∧ -180 ≤ E ∧ E ≤ 180 ∧ E < W) := by
  have hπ := Real.pi_pos
  have hR : (0:ℝ) < EARTH_RADIUS := by norm_num [EARTH_RADIUS]
  have hdlat_pos : 0 < radius / (2 * Real.pi * EARTH_RADIUS) * 360 := by positivity
  simp only [enclosing_rectangle]
  split_ifs with h1 h2 hS hN hN2 hS2 h3 h4
  · exact Or.inl ⟨-90, 90, -180, 180, rfl, by norm_num, by norm_num, by norm_num,
      by norm_num, by norm_num⟩
  · exact Or.inl ⟨-90, 90, -180, 180, rfl, by norm_num, by norm_num, by norm_num,
      by norm_num, by norm_num⟩
  · exact Or.inl ⟨-90, origin_lat + radius / (2 * Real.pi * EARTH_RADIUS) * 360,
      -180, 180, rfl, by linarith, by norm_num, by norm_num, by norm_num, by norm_num⟩
  · exact Or.inl ⟨origin_lat - radius / (2 * Real.pi * EARTH_RADIUS) * 360, 90,
      -180, 180, rfl, by linarith, by norm_num, by norm_num, by norm_num, by norm_num⟩
  · exact absurd h2 (by tauto)
  · exact Or.inl ⟨origin_lat - radius / (2 * Real.pi * EARTH_RADIUS) * 360,
      origin_lat + radius / (2 * Real.pi * EARTH_RADIUS) * 360,
      -180, 180, rfl, by linarith, by norm_num, by norm_num, by norm_num, by norm_num⟩
  all_goals
    have hcs : 0 < 2 * Real.pi * Real.cos (radians origin_lat) * EARTH_RADIUS := by
      have hS2' := not_le.mp hS2
      linarith
  all_goals
    have hdlon_pos : 0 < radius /
        (2 * Real.pi * Real.cos (radians origin_lat) * EARTH_RADIUS) * 360 :=
      mul_pos (div_pos hr hcs) (by norm_num)
  all_goals
    have hdlon_lt : radius /
        (2 * Real.pi * Real.cos (radians origin_lat) * EARTH_RADIUS) * 360 < 180 := by
      rw [div_mul_eq_mul_div, div_lt_iff₀ hcs]
      have hS2' := not_le.mp hS2
      linarith
  · refine Or.inr ⟨origin_lat - radius / (2 * Real.pi * EARTH_RADIUS) * 360,
      origin_lat + radius / (2 * Real.pi * EARTH_RADIUS) * 360,
      360 + (origin_lon - radius /
        (2 * Real.pi * Real.cos (radians origin_lat) * EARTH_RADIUS) * 360),
      origin_lon + radius /
        (2 * Real.pi * Real.cos (radians origin_lat) * EARTH_RADIUS) * 360,
      rfl, by linarith, by linarith, by linarith, by linarith, by linarith, by linarith⟩
  · refine Or.inr ⟨origin_lat - radius / (2 * Real.pi * EARTH_RADIUS) * 360,
      origin_lat + radius / (2 * Real.pi * EARTH_RADIUS) * 360,
      origin_lon - radius /
        (2 * Real.pi * Real.cos (radians origin_lat) * EARTH_RADIUS) * 360,
      origin_lon + radius /
        (2 * Real.pi * Real.cos (radians origin_lat) * EARTH_RADIUS) * 360 - 360,
      rfl, by linarith, by linarith [not_lt.mp h3], by linarith, by linarith,
      by linarith, by linarith⟩
  · exact Or.inl ⟨origin_lat - radius / (2 * Real.pi * EARTH_RADIUS) * 360,
      origin_lat + radius / (2 * Real.pi * EARTH_RADIUS) * 360,
      origin_lon - radius /
        (2 * Real.pi * Real.cos (radians origin_lat) * EARTH_RADIUS) * 360,
      origin_lon + radius /
        (2 * Real.pi * Real.cos (radians origin_lat) * EARTH_RADIUS) * 360,
      rfl, by linarith, by linarith [not_lt.mp h3], by linarith, by linarith,
      by linarith [not_lt.mp h4]⟩

/-- C6: when the full-globe case does not apply and the computed
latitude band overflows a pole — `lat_S = origin_lat - dlat` is below
`-90` or within `isclose` tolerance of it, or
`lat_N = origin_lat + dlat` is above `90` or within tolerance — the
function clamps exactly the overflowing bound(s) to `∓90` and returns a
single rectangle spanning the full longitude range `[-180, 180]`. -/
theorem claim6_pole_full_longitude (radius origin_lat origin_lon : ℝ)
    (hr : 0 < radius) (hlat₁ : -90 ≤ origin_lat) (hlat₂ : origin_lat ≤ 90)
    (hlon₁ : -180 ≤ origin_lon) (hlon₂ : origin_lon ≤ 180)
    (hsmall : radius < 2 * Real.pi * EARTH_RADIUS * 0.5)
    (hpole : (origin_lat - radius / (2 * Real.pi * EARTH_RADIUS) * 360 < -90 ∨
        isclose (origin_lat - radius / (2 * Real.pi * EARTH_RADIUS) * 360) (-90)) ∨
      (origin_lat + radius / (2 * Real.pi * EARTH_RADIUS) * 360 > 90 ∨
        isclose (origin_lat + radius / (2 * Real.pi * EARTH_RADIUS) * 360) 90)) :
    enclosing_rectangle radius origin_lat origin_lon =
      [if origin_lat - radius / (2 * Real.pi * EARTH_RADIUS) * 360 < -90 ∨
          isclose (origin_lat - radius / (2 * Real.pi * EARTH_RADIUS) * 360) (-90)
        then -90 else origin_lat - radius / (2 * Real.pi * EARTH_RADIUS) * 360,
       if origin_lat + radius / (2 * Real.pi * EARTH_RADIUS) * 360 > 90 ∨
          isclose (origin_lat + radius / (2 * Real.pi * EARTH_RADIUS) * 360) 90
        then 90 else origin_lat + radius / (2 * Real.pi * EARTH_RADIUS) * 360,
       -180, 180] := by
  simp only [enclosing_rectangle]
  rw [if_neg (not_le.mpr hsmall), if_pos hpole]

/-- C7: in the longitude step (no full-globe, pole, or full-wrap case),
an east overflow `lon_E > 180` yields exactly the two rectangles
`(lat_S, lat_N, lon_W, 180)` and `(lat_S, lat_N, -180, lon_E - 360)`,
a west overflow `lon_W < -180` yields `(lat_S, lat_N, lon_W + 360, 180)`
and `(lat_S, lat_N, -180, lon_E)` (the code writes the remapped west
bound as `360 + lon_W`), and the two overflows cannot happen
together. -/
theorem claim7_antimeridian_split (radius origin_lat origin_lon : ℝ)
    (hr : 0 < radius) (hlat₁ : -90 ≤ origin_lat) (hlat₂ : origin_lat ≤ 90)
    (hlon₁ : -180 ≤ origin_lon) (hlon₂ : origin_lon ≤ 180)
    (hsmall : radius < 2 * Real.pi * EARTH_RADIUS * 0.5)
    (hnpole : ¬ ((origin_lat - radius / (2 * Real.pi * EARTH_RADIUS) * 360 < -90 ∨
        isclose (origin_lat - radius / (2 * Real.pi * EARTH_RADIUS) * 360) (-90)) ∨
      (origin_lat + radius / (2 * Real.pi * EARTH_RADIUS) * 360 > 90 ∨
        isclose (origin_lat + radius / (2 * Real.pi * EARTH_RADIUS) * 360) 90)))
    (hnwrap : radius <
      2 * Real.pi * Real.cos (radians origin_lat) * EARTH_RADIUS / 2) :
    (origin_lon + radius /
        (2 * Real.pi * Real.cos (radians origin_lat) * EARTH_RADIUS) * 360 > 180 →
      enclosing_rectangle radius origin_lat origin_lon =
        [origin_lat - radius / (2 * Real.pi * EARTH_RADIUS) * 360,
         origin_lat + radius / (2 * Real.pi * EARTH_RADIUS) * 360,
         origin_lon - radius /
           (2 * Real.pi * Real.cos (radians origin_lat) * EARTH_RADIUS) * 360,
         180, -180,
         origin_lon + radius /
           (2 * Real.pi * Real.cos (radians origin_lat) * EARTH_RADIUS) * 360 - 360]) ∧
    (origin_lon - radius /
        (2 * Real.pi * Real.cos (radians origin_lat) * EARTH_RADIUS) * 360 < -180 →
      enclosing_rectangle radius origin_lat origin_lon =
        [origin_lat - radius / (2 * Real.pi * EARTH_RADIUS) * 360,
         origin_lat + radius / (2 * Real.pi * EARTH_RADIUS) * 360,
         360 + (origin_lon - radius /
           (2 * Real.pi * Real.cos (radians origin_lat) * EARTH_RADIUS) * 360),
         180, -180,
         origin_lon + radius /
           (2 * Real.pi * Real.cos (radians origin_lat) * EARTH_RADIUS) * 360]) ∧
    ¬ (origin_lon - radius /
        (2 * Real.pi * Real.cos (radians origin_lat) * EARTH_RADIUS) * 360 < -180 ∧
       origin_lon + radius /
        (2 * Real.pi * Real.cos (radians origin_lat) * EARTH_RADIUS) * 360 > 180) := by
  have hπ := Real.pi_pos
  have hcs : 0 < 2 * Real.pi * Real.cos (radians origin_lat) * EARTH_RADIUS := by
    linarith
  have hdlon_lt : radius /
      (2 * Real.pi * Real.cos (radians origin_lat) * EARTH_RADIUS) * 360 < 180 := by
    rw [div_mul_eq_mul_div, div_lt_iff₀ hcs]
    linarith
  refine ⟨?_, ?_, ?_⟩
  · intro hE
    have hnW : ¬ (origin_lon - radius /
        (2 * Real.pi * Real.cos (radians origin_lat) * EARTH_RADIUS) * 360 < -180) := by
      intro hW
      linarith
    simp only [enclosing_rectangle]
    rw [if_neg (not_le.mpr hsmall), if_neg hnpole, if_neg (not_le.mpr hnwrap),
      if_neg hnW, if_pos hE]
  · intro hW
    simp only [enclosing_rectangle]
    rw [if_neg (not_le.mpr hsmall), if_neg hnpole, if_neg (not_le.mpr hnwrap),
      if_pos hW]
  · rintro ⟨hW, hE⟩
    linarith

/-- Witness for C2: the empty-input clause evaluated at a concrete
input. -/
theorem claim2_filter_and_sort_exact_witness :
    filter_and_sort [] 1 0 0 = [] :=
  (claim2_filter_and_sort_exact [] 1 0 0).2.2.2.2 rfl

/-- Witness for C4: for the always-failing backend, the call fails and
the wrapped cause is the backend's error. -/
theorem claim4_error_atomicity_witness :
    ∃ q bm, failSearch q bm = Except.error 7 :=
  (claim4_error_atomicity ℕ ℕ).1 failSearch [0, 0, 0, 0] 5 ⟨7⟩ rfl

/-- Witness for C6 at radius 10000 km from origin `(80°, 0°)`: the
latitude band overflows the north pole, so the returned rectangle is
clamped to `90` and spans the full longitude range. -/
theorem claim6_pole_full_longitude_witness :
    enclosing_rectangle 10000 80 0 =
      [if (80:ℝ) - 10000 / (2 * Real.pi * EARTH_RADIUS) * 360 < -90 ∨
          isclose ((80:ℝ) - 10000 / (2 * Real.pi * EARTH_RADIUS) * 360) (-90)
        then -90 else (80:ℝ) - 10000 / (2 * Real.pi * EARTH_RADIUS) * 360,
       if (80:ℝ) + 10000 / (2 * Real.pi * EARTH_RADIUS) * 360 > 90 ∨
          isclose ((80:ℝ) + 10000 / (2 * Real.pi * EARTH_RADIUS) * 360) 90
        then 90 else (80:ℝ) + 10000 / (2 * Real.pi * EARTH_RADIUS) * 360,
       -180, 180] := by
  have hπl : (3.141592:ℝ) < Real.pi := Real.pi_gt_3141592
  have hπu : Real.pi < 3.141593 := Real.pi_lt_3141593
  have hER : (0:ℝ) < EARTH_RADIUS := by norm_num [EARTH_RADIUS]
  have hce : (0:ℝ) < 2 * Real.pi * EARTH_RADIUS := by positivity
  apply claim6_pole_full_longitude 10000 80 0 (by norm_num) (by norm_num)
    (by norm_num) (by norm_num) (by norm_num)
  · simp only [EARTH_RADIUS] at hER ⊢
    nlinarith
  · refine Or.inr (Or.inl ?_)
    have hd : (10:ℝ) < 10000 / (2 * Real.pi * EARTH_RADIUS) * 360 := by
      rw [div_mul_eq_mul_div, lt_div_iff₀ hce]
      simp only [EARTH_RADIUS]
      nlinarith
    linarith

/-- Witness for C7 at radius 300 km from origin `(0°, 179°)`: the east
bound overflows the antimeridian and the two-rectangle split is
returned. -/
theorem claim7_antimeridian_split_witness :
    enclosing_rectangle 300 0 179 =
      [0 - 300 / (2 * Real.pi * EARTH_RADIUS) * 360,
       0 + 300 / (2 * Real.pi * EARTH_RADIUS) * 360,
       179 - 300 / (2 * Real.pi * Real.cos (radians 0) * EARTH_RADIUS) * 360,
       180, -180,
       179 + 300 / (2 * Real.pi * Real.cos (radians 0) * EARTH_RADIUS) * 360 - 360] := by
  have hπl : (3.141592:ℝ) < Real.pi := Real.pi_gt_3141592
  have hπu : Real.pi < 3.141593 := Real.pi_lt_3141593
  have hER : (0:ℝ) < EARTH_RADIUS := by norm_num [EARTH_RADIUS]
  have hce : (0:ℝ) < 2 * Real.pi * EARTH_RADIUS := by positivity
  have hcos : Real.cos (radians 0) = 1 := by
    rw [show radians 0 = 0 by unfold radians; ring, Real.cos_zero]
  have hd₁ : (2:ℝ) < 300 / (2 * Real.pi * EARTH_RADIUS) * 360 := by
    rw [div_mul_eq_mul_div, lt_div_iff₀ hce]
    simp only [EARTH_RADIUS]
    nlinarith
  have hd₂ : 300 / (2 * Real.pi * EARTH_RADIUS) * 360 < (3:ℝ) := by
    rw [div_mul_eq_mul_div, div_lt_iff₀ hce]
    simp only [EARTH_RADIUS]
    nlinarith
  refine (claim7_antimeridian_split 300 0 179 (by norm_num) (by norm_num)
    (by norm_num) (by norm_num) (by norm_num) ?_ ?_ ?_).1 ?_
  · simp only [EARTH_RADIUS] at hER ⊢
    nlinarith
  · rintro ((h | h) | (h | h))
    · linarith
    · exact not_isclose_of_far
        (by rw [abs_of_neg (by linarith : (0:ℝ) - 300 / (2 * Real.pi * EARTH_RADIUS) * 360 < 0),
            abs_of_neg (by norm_num : (-90:ℝ) < 0)]; linarith)
        (by rw [abs_of_neg (by norm_num : (-90:ℝ) < 0),
            abs_of_pos (by linarith :
              (0:ℝ) < 0 - 300 / (2 * Real.pi * EARTH_RADIUS) * 360 - (-90))]; linarith) h
    · linarith
    · exact not_isclose_of_far
        (by rw [abs_of_pos (by linarith : (0:ℝ) < 0 + 300 / (2 * Real.pi * EARTH_RADIUS) * 360),
            abs_of_pos (by norm_num : (0:ℝ) < (90:ℝ))]; linarith)
        (by rw [abs_of_pos (by norm_num : (0:ℝ) < (90:ℝ)),
            abs_of_neg (by linarith :
              0 + 300 / (2 * Real.pi * EARTH_RADIUS) * 360 - 90 < (0:ℝ))]; linarith) h
  · rw [hcos]
    simp only [EARTH_RADIUS] at hER ⊢
    nlinarith
  · rw [hcos]
    have : (1:ℝ) < 300 / (2 * Real.pi * 1 * EARTH_RADIUS) * 360 := by
      rw [show 2 * Real.pi * 1 * EARTH_RADIUS = 2 * Real.pi * EARTH_RADIUS by ring]
      linarith
    linarith

/-- Witness for C8 at radius 1 km from origin `(0°, 0°)`. -/
theorem claim8_rect_invariants_witness :
    (∃ S N W E : ℝ, enclosing_rectangle 1 0 0 = [S, N, W, E] ∧
      S ≤ N ∧ -180 ≤ W ∧ W ≤ 180 ∧ -180 ≤ E ∧ E ≤ 180) ∨
    (∃ S N W E : ℝ, enclosing_rectangle 1 0 0 = [S, N, W, 180, -180, E] ∧
      S ≤ N ∧ -180 ≤ W ∧ W ≤ 180 ∧ -180 ≤ E ∧ E ≤ 180 ∧ E < W) :=
  claim8_rect_invariants 1 0 0 (by norm_num) (by norm_num) (by norm_num)
    (by norm_num) (by norm_num)

/-- Witness for C10: the all-empty-pages backend keeps the loop running
at a concrete fuel value. -/
theorem claim10_empty_page_divergence_witness :
    get_search_results emptyPageSearch [0, 0, 0, 0] 5 = none :=
  claim10_empty_page_divergence Unit ℕ emptyPageSearch
    (fun _ _ => ⟨0, "bm", rfl⟩) 5 0 0 0 0

end Theorems

end SearchAirports
